import Mathlib

/-!
Verification development for the script-evaluation pipeline
(`src/evaluator.py`, `src/api_client.py`).

Python JSON-shaped values are modelled by the inductive `JsonValue`
(with `jint`/`jfloat` kept separate, mirroring `json.loads` producing
`int` versus `float`); Python numbers are modelled by `ℚ`.  Raised
Python exceptions are modelled by `Except PyError`; a `PyError` records
the exception class name and its message.  Response text is modelled as
`List Char`.
-/

set_option autoImplicit false

/-- A parsed JSON value as produced by Python `json.loads`: `int` and
`float` results are kept as separate constructors. -/
inductive JsonValue where
  | null
  | bool (b : Bool)
  | jint (n : ℤ)
  | jfloat (q : ℚ)
  | str (s : String)
  | arr (xs : List JsonValue)
  | obj (fields : List (String × JsonValue))
deriving Repr

/-- A raised Python exception: the exception class name and message. -/
structure PyError where
  pyType : String
  msg : String
deriving Repr, DecidableEq

/-- Look a key up in the field list of a JSON object (Python `dict`
keys are unique, so first match suffices). -/
def jFind : List (String × JsonValue) → String → Option JsonValue
  | [], _ => none
  | (k, v) :: rest, key => if k = key then some v else jFind rest key

/-- `v.get(key, default)` on a JSON object (Python `dict.get`). -/
def jGetD (v : JsonValue) (key : String) (default : JsonValue) : JsonValue :=
  match v with
  | .obj fields => (jFind fields key).getD default
  | _ => default

/-- `key in v` on a JSON object (Python `in` for `dict`). -/
def jHasKey (v : JsonValue) (key : String) : Bool :=
  match v with
  | .obj fields => (jFind fields key).isSome
  | _ => false

/-- `isinstance(v, dict)`. -/
def jIsObj (v : JsonValue) : Bool :=
  match v with
  | .obj _ => true
  | _ => false

/-- The numeric value of a JSON value when Python would treat it as a
number in arithmetic (`int`, `float`, and `bool` as an `int` subclass);
`none` where Python arithmetic would raise `TypeError`. -/
def asNum (v : JsonValue) : Option ℚ :=
  match v with
  | .jint n => some (n : ℚ)
  | .jfloat q => some q
  | .bool b => some (if b then 1 else 0)
  | _ => none

/-- Whether the value is a Python `float` (used only to pick the exact
`ZeroDivisionError` message). -/
def jIsFloat (v : JsonValue) : Bool :=
  match v with
  | .jfloat _ => true
  | _ => false

/-- Python `type(v).__name__` for a parsed JSON value. -/
def pyTypeName (v : JsonValue) : String :=
  match v with
  | .null => "NoneType"
  | .bool _ => "bool"
  | .jint _ => "int"
  | .jfloat _ => "float"
  | .str _ => "str"
  | .arr _ => "list"
  | .obj _ => "dict"

/-- A single-quote character (used by the Python `repr` of strings). -/
def squote : String := String.singleton (Char.ofNat 39)

/-- Python `repr` of a `float` (decimal point always shown for whole
numbers; non-dyadic denominators are approximated by the rational
notation, which no verified statement depends on). -/
def floatRepr (q : ℚ) : String :=
  if q.den = 1 then toString q.num ++ ".0" else toString q

/-- Python `repr` of a parsed JSON value, with fuel for recursion
(fuel is always sufficient at `sizeOf v`). String escaping is not
reproduced; no verified statement depends on this text. -/
def pyReprF : ℕ → JsonValue → String
  | 0, _ => ""
  | _ + 1, .null => "None"
  | _ + 1, .bool b => if b then "True" else "False"
  | _ + 1, .jint n => toString n
  | _ + 1, .jfloat q => floatRepr q
  | _ + 1, .str s => squote ++ s ++ squote
  | fuel + 1, .arr xs =>
      "[" ++ String.intercalate ", " (xs.map (pyReprF fuel)) ++ "]"
  | fuel + 1, .obj fields =>
      "\x7b" ++
        String.intercalate ", "
          (fields.map (fun kv => squote ++ kv.1 ++ squote ++ ": " ++ pyReprF fuel kv.2)) ++
      "\x7d"

mutual

/-- A size measure on JSON values, used as recursion fuel. -/
def jSize : JsonValue → ℕ
  | .arr xs => jSizeList xs + 1
  | .obj fs => jSizeFields fs + 1
  | _ => 1

/-- Size of a list of JSON values. -/
def jSizeList : List JsonValue → ℕ
  | [] => 0
  | x :: xs => jSize x + jSizeList xs

/-- Size of a JSON object field list. -/
def jSizeFields : List (String × JsonValue) → ℕ
  | [] => 0
  | kv :: fs => jSize kv.2 + jSizeFields fs

end

/-- Python `repr` of a parsed JSON value. -/
def pyRepr (v : JsonValue) : String := pyReprF (jSize v) v

/-- Python `str` of a parsed JSON value (as used by f-string
interpolation): a `str` prints itself, everything else its `repr`. -/
def pyStr (v : JsonValue) : String :=
  match v with
  | .str s => s
  | v => pyRepr v

/-! ## Dimension configuration (`config.yml` entries as accessed by the code) -/

/-- One entry of `self.dimensions`: the fields the code reads with
`.get('name', …)`, `.get('weight', 0)` and `.get('prompt_file')`. -/
structure DimConfig where
  name : Option String
  weight : Option ℚ
  prompt_file : Option String
deriving Repr, DecidableEq

/-- `self.dimensions.get(dimension, {}).get('weight', 0)`. -/
def weightOf (dims : List (String × DimConfig)) (d : String) : ℚ :=
  ((dims.lookup d).bind DimConfig.weight).getD 0

/-- `self.dimensions.get(dimension, {}).get('name', dimension)`. -/
def dimName (dims : List (String × DimConfig)) (d : String) : String :=
  ((dims.lookup d).bind DimConfig.name).getD d

/-! ## Score Aggregator (`ScriptEvaluator._calculate_overall_score`, `_get_grade`) -/

/-- One entry of the `details` list built by
`_calculate_overall_score`. -/
structure Detail where
  dimension : JsonValue
  score : JsonValue
  max_score : JsonValue
  weight : ℚ
  weighted_score : ℚ
deriving Repr

/-- The `overall` summary returned by `_calculate_overall_score`. -/
structure Overall where
  total_score : ℚ
  max_score : ℚ
  details : List Detail
  grade : String
deriving Repr

/-- `ScriptEvaluator._get_grade`. -/
def getGrade (score : ℚ) : String :=
  if score ≥ 90 then "S"
  else if score ≥ 80 then "A"
  else if score ≥ 70 then "B"
  else if score ≥ 60 then "C"
  else "D"

/-- Python `round(x, 2)` modelled on `ℚ` (two-decimal rounding; the
same function is used on both the code side and the specification
formula, so its tie-breaking convention does not affect any
comparison). -/
def round2 (q : ℚ) : ℚ := (round (100 * q) : ℤ) / 100

/-- The `ZeroDivisionError` Python raises for `s / m` with `m == 0`. -/
def zeroDivErr (scoreV maxV : JsonValue) : PyError :=
  if jIsFloat scoreV || jIsFloat maxV then
    ⟨"ZeroDivisionError", "float division by zero"⟩
  else
    ⟨"ZeroDivisionError", "division by zero"⟩

/-- The `TypeError` Python raises for `/` on a non-numeric operand
(message abbreviated from the standard library text). -/
def divTypeErr : PyError := ⟨"TypeError", "unsupported operand type(s) for /"⟩

/-- The accumulation loop of `_calculate_overall_score`: entries whose
verdict contains an `"error"` key are skipped; for the rest the code
computes `weighted_score = (score / max_score) * weight * 100` and
accumulates the weighted score, the weight and a detail entry.
A zero `max_score` raises `ZeroDivisionError`; a non-numeric score or
max raises `TypeError`. -/
def calcLoop (dims : List (String × DimConfig)) :
    List (String × JsonValue) → ℚ → ℚ → List Detail →
    Except PyError (ℚ × ℚ × List Detail)
  | [], tws, tw, details => .ok (tws, tw, details)
  | (d, v) :: rest, tws, tw, details =>
    if jHasKey v "error" then calcLoop dims rest tws tw details
    else
      let weight := weightOf dims d
      let scoreV := jGetD v "total_score" (.jint 0)
      let maxV := jGetD v "max_score" (.jint 100)
      let nameV := jGetD v "dimension_name" (.str d)
      match asNum scoreV, asNum maxV with
      | some s, some m =>
        if m = 0 then .error (zeroDivErr scoreV maxV)
        else
          let ws := s / m * weight * 100
          calcLoop dims rest (tws + ws) (tw + weight)
            (details ++ [⟨nameV, scoreV, maxV, weight, ws⟩])
      | _, _ => .error divTypeErr

/-- `ScriptEvaluator._calculate_overall_score`: runs the accumulation
loop, then `overall_score = total_weighted_score / total_weight if
total_weight > 0 else 0`, rounded to two decimals for `total_score`,
with the grade computed from the unrounded overall score. -/
def calcOverallScore (dims : List (String × DimConfig))
    (results : List (String × JsonValue)) : Except PyError Overall :=
  match calcLoop dims results 0 0 [] with
  | .error e => .error e
  | .ok (tws, tw, details) =>
    let overall := if tw > 0 then tws / tw else 0
    .ok ⟨round2 overall, 100, details, getGrade overall⟩

/-! Specification-side views of the aggregation, used to state the
claimed formula. -/

/-- The verdicts that carry no `"error"` marker. -/
def nonErrEntries (results : List (String × JsonValue)) : List (String × JsonValue) :=
  results.filter (fun p => !(jHasKey p.2 "error"))

/-- The numeric score of a verdict (`result.get('total_score', 0)`). -/
def entryScore (p : String × JsonValue) : ℚ :=
  (asNum (jGetD p.2 "total_score" (.jint 0))).getD 0

/-- The numeric declared maximum of a verdict
(`result.get('max_score', 100)`). -/
def entryMax (p : String × JsonValue) : ℚ :=
  (asNum (jGetD p.2 "max_score" (.jint 100))).getD 0

/-- One verdict's weighted contribution
`(score / max_score) * weight * 100`. -/
def entryWeighted (dims : List (String × DimConfig)) (p : String × JsonValue) : ℚ :=
  entryScore p / entryMax p * weightOf dims p.1 * 100

/-- The detail entry recorded for one non-error verdict. -/
def entryDetail (dims : List (String × DimConfig)) (p : String × JsonValue) : Detail :=
  ⟨jGetD p.2 "dimension_name" (.str p.1), jGetD p.2 "total_score" (.jint 0),
    jGetD p.2 "max_score" (.jint 100), weightOf dims p.1, entryWeighted dims p⟩

/-! ## Resilient API Client (`DoubaoAPIClient._make_request`)

One HTTP POST attempt is modelled by its externally determined outcome:
success (the parsed response body), a timeout, an HTTP error (non-2xx,
carrying `response.text`), or a transport-level failure. -/

/-- The outcome of one `requests.post` attempt. -/
inductive AttemptOutcome where
  | success (v : JsonValue)
  | timeout
  | httpError (body : String)
  | transportError (m : String)
deriving Repr

/-- The observable behaviour of one `_make_request` call: the returned
value or raised exception (`.ok none` models Python falling off the
loop and returning `None` when `max_retries == 0`), the number of HTTP
request attempts made, and the list of back-off sleeps (in seconds)
performed between attempts. -/
structure RunResult where
  result : Except PyError (Option JsonValue)
  attempts : ℕ
  sleeps : List ℕ
deriving Repr

/-- The retry loop body of `_make_request` over the remaining attempt
indices (`for attempt in range(self.max_retries)`): on failure at the
last index the typed error is raised, otherwise the code sleeps
`2 ** attempt` seconds and retries. -/
def runAttempts (outcome : ℕ → AttemptOutcome) (timeoutSec : ℕ) (lastIdx : ℕ) :
    List ℕ → RunResult
  | [] => ⟨.ok none, 0, []⟩
  | i :: rest =>
    match outcome i with
    | .success v => ⟨.ok (some v), 1, []⟩
    | .timeout =>
      if i = lastIdx then
        ⟨.error ⟨"TimeoutError", s!"API 请求超时（{timeoutSec}秒）"⟩, 1, []⟩
      else
        let r := runAttempts outcome timeoutSec lastIdx rest
        ⟨r.result, r.attempts + 1, 2 ^ i :: r.sleeps⟩
    | .httpError body =>
      if i = lastIdx then
        ⟨.error ⟨"RuntimeError", "API 请求失败: " ++ body⟩, 1, []⟩
      else
        let r := runAttempts outcome timeoutSec lastIdx rest
        ⟨r.result, r.attempts + 1, 2 ^ i :: r.sleeps⟩
    | .transportError m =>
      if i = lastIdx then
        ⟨.error ⟨"RuntimeError", "网络请求错误: " ++ m⟩, 1, []⟩
      else
        let r := runAttempts outcome timeoutSec lastIdx rest
        ⟨r.result, r.attempts + 1, 2 ^ i :: r.sleeps⟩

/-- `DoubaoAPIClient._make_request` with a given per-attempt outcome,
configured timeout (seconds) and `max_retries` (default 3 in the
source). -/
def makeRequest (outcome : ℕ → AttemptOutcome) (timeoutSec : ℕ) (maxRetries : ℕ) :
    RunResult :=
  runAttempts outcome timeoutSec (maxRetries - 1) (List.range maxRetries)

/-! ## Response Normalizer (`DoubaoAPIClient.chat_with_json_response`)

Response text is a `List Char`; `str.strip`, `str.startswith`,
slicing, `json.loads` and `float` are modelled below. -/

/-- Python `str.strip()` whitespace (the ASCII whitespace characters). -/
def isPySpace (c : Char) : Bool :=
  c = ' ' || c = '\t' || c = '\n' || c = '\r' || c = '\x0b' || c = '\x0c'

/-- Python `str.strip()`. -/
def pyStrip (l : List Char) : List Char :=
  ((l.dropWhile isPySpace).reverse.dropWhile isPySpace).reverse

/-- Python `str.startswith(pat)` on character lists. -/
def startsWithL : List Char → List Char → Bool
  | [], _ => true
  | _ :: _, [] => false
  | p :: ps, c :: cs => p == c && startsWithL ps cs

/-- Python `str.endswith(pat)` on character lists. -/
def endsWithL (pat s : List Char) : Bool :=
  startsWithL pat.reverse s.reverse

/-- The characters of the fence marker `"```"`. -/
def fence3 : List Char := "```".toList

/-- The characters of the fence-with-tag marker `"```json"`. -/
def fenceJson7 : List Char := "```json".toList

/-- The cleaning step of `chat_with_json_response`: strip, remove a
leading `"```json"` (7 chars) or else a leading `"```"` (3 chars),
remove a trailing `"```"` (3 chars), strip again. -/
def cleanResponse (l : List Char) : List Char :=
  let c := pyStrip l
  let c :=
    if startsWithL fenceJson7 c then c.drop 7
    else if startsWithL fence3 c then c.drop 3
    else c
  let c := if endsWithL fence3 c then c.take (c.length - 3) else c
  pyStrip c

/-! ### `json.loads` (Python standard library, modelled faithfully on
the JSON grammar: the exact `JSONDecodeError` messages are not
reproduced) -/

/-- JSON structural whitespace. -/
def isJsonWs (c : Char) : Bool :=
  c = ' ' || c = '\t' || c = '\n' || c = '\r'

/-- Skip JSON whitespace. -/
def skipWs (l : List Char) : List Char := l.dropWhile isJsonWs

/-- Numeric value of a digit list. -/
def digitsToNat (ds : List Char) : ℕ :=
  ds.foldl (fun n c => n * 10 + (c.toNat - 48)) 0

/-- Hexadecimal digit value. -/
def hexVal (c : Char) : Option ℕ :=
  if c.isDigit then some (c.toNat - 48)
  else if 'a' ≤ c ∧ c ≤ 'f' then some (c.toNat - 87)
  else if 'A' ≤ c ∧ c ≤ 'F' then some (c.toNat - 55)
  else none

/-- Parse the body of a JSON string after the opening quote, returning
the decoded characters and the remaining input. -/
def parseStrBody : ℕ → List Char → List Char → Option (List Char × List Char)
  | 0, _, _ => none
  | _ + 1, acc, '"' :: rest => some (acc.reverse, rest)
  | fuel + 1, acc, '\\' :: e :: rest =>
    match e with
    | '"' => parseStrBody fuel ('"' :: acc) rest
    | '\\' => parseStrBody fuel ('\\' :: acc) rest
    | '/' => parseStrBody fuel ('/' :: acc) rest
    | 'b' => parseStrBody fuel ('\x08' :: acc) rest
    | 'f' => parseStrBody fuel ('\x0c' :: acc) rest
    | 'n' => parseStrBody fuel ('\n' :: acc) rest
    | 'r' => parseStrBody fuel ('\r' :: acc) rest
    | 't' => parseStrBody fuel ('\t' :: acc) rest
    | 'u' =>
      match rest with
      | h1 :: h2 :: h3 :: h4 :: rest2 =>
        match hexVal h1, hexVal h2, hexVal h3, hexVal h4 with
        | some a, some b, some c, some d =>
          parseStrBody fuel (Char.ofNat (((a * 16 + b) * 16 + c) * 16 + d) :: acc) rest2
        | _, _, _, _ => none
      | _ => none
    | _ => none
  | fuel + 1, acc, c :: rest => parseStrBody fuel (c :: acc) rest
  | _ + 1, _, [] => none

/-- Parse the integer-part digits of a JSON number (either `0` alone or
a nonzero digit followed by digits, per the JSON grammar). -/
def parseIntPart : List Char → Option (ℕ × List Char)
  | '0' :: rest => some (0, rest)
  | c :: rest =>
    if c.isDigit then
      let ds := rest.takeWhile Char.isDigit
      some (digitsToNat (c :: ds), rest.dropWhile Char.isDigit)
    else none
  | [] => none

/-- Parse an optional exponent part; returns the signed exponent (0 if
absent) together with whether an exponent was present. -/
def parseExpPart : List Char → Option (ℤ × Bool × List Char)
  | c :: rest =>
    if c = 'e' ∨ c = 'E' then
      let (esign, rest1) : ℤ × List Char :=
        match rest with
        | '-' :: r => (-1, r)
        | '+' :: r => (1, r)
        | r => (1, r)
      let ds := rest1.takeWhile Char.isDigit
      if ds = [] then none
      else some (esign * (digitsToNat ds : ℤ), true, rest1.dropWhile Char.isDigit)
    else some (0, false, c :: rest)
  | [] => some (0, false, [])

/-- Parse a JSON number; yields `jint` when there is neither a fraction
nor an exponent (Python `json` produces `int` there, `float`
otherwise). -/
def parseNumber (l : List Char) : Option (JsonValue × List Char) :=
  let (neg, l1) : Bool × List Char :=
    match l with
    | '-' :: r => (true, r)
    | r => (false, r)
  match parseIntPart l1 with
  | none => none
  | some (ip, l2) =>
    let (frac, fracLen, l3) : ℕ × ℕ × List Char :=
      match l2 with
      | '.' :: r =>
        let ds := r.takeWhile Char.isDigit
        (digitsToNat ds, ds.length, r.dropWhile Char.isDigit)
      | r => (0, 0, r)
    let hasFrac : Bool := decide (l3 ≠ l2)
    if hasFrac ∧ fracLen = 0 then none
    else
      match parseExpPart l3 with
      | none => none
      | some (ex, hasExp, l4) =>
        let mag : ℚ := ((ip : ℚ) + (frac : ℚ) / (10 : ℚ) ^ fracLen) * (10 : ℚ) ^ ex
        let q : ℚ := if neg then -mag else mag
        if hasFrac || hasExp then some (.jfloat q, l4)
        else some (.jint (if neg then -(ip : ℤ) else (ip : ℤ)), l4)

/-- Insert a key/value pair with Python `dict` semantics: replace in
place when the key exists, append otherwise. -/
def objInsert (acc : List (String × JsonValue)) (k : String) (v : JsonValue) :
    List (String × JsonValue) :=
  match acc with
  | [] => [(k, v)]
  | (k0, v0) :: rest =>
    if k0 = k then (k0, v) :: rest else (k0, v0) :: objInsert rest k v

mutual

/-- Parse one JSON value (leading whitespace allowed), with fuel. -/
def parseValue : ℕ → List Char → Option (JsonValue × List Char)
  | 0, _ => none
  | fuel + 1, s =>
    match skipWs s with
    | '{' :: r =>
      match skipWs r with
      | '}' :: r2 => some (.obj [], r2)
      | r2 =>
        match parseMembers fuel r2 [] with
        | some (fs, rest) => some (.obj fs, rest)
        | none => none
    | '[' :: r =>
      match skipWs r with
      | ']' :: r2 => some (.arr [], r2)
      | r2 =>
        match parseElements fuel r2 [] with
        | some (xs, rest) => some (.arr xs, rest)
        | none => none
    | '"' :: r =>
      match parseStrBody (r.length + 1) [] r with
      | some (cs, rest) => some (.str (String.mk cs), rest)
      | none => none
    | 't' :: r =>
      if startsWithL "rue".toList r then some (.bool true, r.drop 3) else none
    | 'f' :: r =>
      if startsWithL "alse".toList r then some (.bool false, r.drop 4) else none
    | 'n' :: r =>
      if startsWithL "ull".toList r then some (.null, r.drop 3) else none
    | s2 => parseNumber s2

/-- Parse the members of a JSON object after at least one member is
required, accumulating with `dict` insertion semantics. -/
def parseMembers : ℕ → List Char → List (String × JsonValue) →
    Option (List (String × JsonValue) × List Char)
  | 0, _, _ => none
  | fuel + 1, s, acc =>
    match skipWs s with
    | '"' :: r =>
      match parseStrBody (r.length + 1) [] r with
      | none => none
      | some (ks, r2) =>
        match skipWs r2 with
        | ':' :: r3 =>
          match parseValue fuel r3 with
          | none => none
          | some (v, r4) =>
            let acc2 := objInsert acc (String.mk ks) v
            match skipWs r4 with
            | ',' :: r5 => parseMembers fuel r5 acc2
            | '}' :: r5 => some (acc2, r5)
            | _ => none
        | _ => none
    | _ => none

/-- Parse the elements of a JSON array after at least one element is
required. -/
def parseElements : ℕ → List Char → List JsonValue →
    Option (List JsonValue × List Char)
  | 0, _, _ => none
  | fuel + 1, s, acc =>
    match parseValue fuel s with
    | none => none
    | some (v, r) =>
      match skipWs r with
      | ',' :: r2 => parseElements fuel r2 (acc ++ [v])
      | ']' :: r2 => some (acc ++ [v], r2)
      | _ => none

end

/-- Python `json.loads`: parse exactly one value with only whitespace
allowed afterwards; `none` models a raised `JSONDecodeError`. -/
def jsonLoads (s : List Char) : Option JsonValue :=
  match parseValue (2 * s.length + 2) s with
  | some (v, rest) => if skipWs rest = [] then some v else none
  | none => none

/-- The guard of the numeric fallback:
`cleaned.replace('.', '').replace('-', '').replace('e', '').replace('E', '').replace('+', '').isdigit()`
(`str.isdigit` is true for a non-empty all-digit string). -/
def digitCheck (l : List Char) : Bool :=
  let f := l.filter (fun c => !(c = '.' || c = '-' || c = 'e' || c = 'E' || c = '+'))
  !f.isEmpty && f.all Char.isDigit

/-- Python `float(text)` on already-stripped text: optional sign, then
digits with an optional fraction (a bare trailing or leading dot is
accepted), with an optional exponent; `none` models a raised
`ValueError`. (`inf`/`nan` forms never reach this call site because
`digitCheck` rejects them.) -/
def parseFloat (l : List Char) : Option ℚ :=
  let (neg, l1) : Bool × List Char :=
    match l with
    | '-' :: r => (true, r)
    | '+' :: r => (false, r)
    | r => (false, r)
  let ds := l1.takeWhile Char.isDigit
  let l2 := l1.dropWhile Char.isDigit
  let (frac, fracLen, l3, hasDot) : ℕ × ℕ × List Char × Bool :=
    match l2 with
    | '.' :: r =>
      let fs := r.takeWhile Char.isDigit
      (digitsToNat fs, fs.length, r.dropWhile Char.isDigit, true)
    | r => (0, 0, r, false)
  if ds = [] ∧ (¬hasDot ∨ fracLen = 0) then none
  else
    match parseExpPart l3 with
    | none => none
    | some (ex, _, l4) =>
      if l4 = [] then
        let mag : ℚ := ((digitsToNat ds : ℚ) + (frac : ℚ) / (10 : ℚ) ^ fracLen) * (10 : ℚ) ^ ex
        some (if neg then -mag else mag)
      else none

/-- The error object built for a parsed value that is neither a list
nor a dict: `{"error": "API 返回非字典类型: <type>", "raw_value": v}`. -/
def nonDictErrObj (v : JsonValue) : JsonValue :=
  .obj [("error", .str ("API 返回非字典类型: " ++ pyTypeName v)), ("raw_value", v)]

/-- The error object built when the cleaned text is a bare numeral:
`{"error": "API 返回了单个数值而非 JSON 对象", "raw_value": float(text)}`. -/
def numErrObj (q : ℚ) : JsonValue :=
  .obj [("error", .str "API 返回了单个数值而非 JSON 对象"), ("raw_value", .jfloat q)]

/-- The `RuntimeError` raised when the response is fully
uninterpretable (the embedded `JSONDecodeError` detail text from the
standard library is not reproduced). -/
def parseFailErr (raw cleaned : List Char) : PyError :=
  ⟨"RuntimeError",
    "解析模型 JSON 响应失败\n原始响应: " ++ String.mk raw ++
      "\n清理后响应: " ++ String.mk cleaned⟩

/-- The normalization performed by `chat_with_json_response` on the
raw response text: clean, `json.loads`; a parsed non-empty list yields
its first element, a parsed dict is returned as is, any other parsed
value yields `nonDictErrObj`; on a parse failure, a bare numeral yields
`numErrObj`, anything else raises. -/
def normalizeResponse (raw : List Char) : Except PyError JsonValue :=
  let cleaned := cleanResponse raw
  match jsonLoads cleaned with
  | some (.arr (x :: _)) => .ok x
  | some v => if jIsObj v then .ok v else .ok (nonDictErrObj v)
  | none =>
    let stripped := pyStrip cleaned
    if digitCheck stripped then
      match parseFloat stripped with
      | some q => .ok (numErrObj q)
      | none => .error (parseFailErr raw cleaned)
    else .error (parseFailErr raw cleaned)

/-- `chat_with_json_response` as observed from `_evaluate_dimension`:
the network layer either raises (propagated) or supplies the raw
response text, which is then normalized. -/
def chatWithJsonResponse (net : Except PyError (List Char)) : Except PyError JsonValue :=
  match net with
  | .error e => .error e
  | .ok raw => normalizeResponse raw

/-! ## Dimension Evaluator (`ScriptEvaluator._load_prompt`,
`ScriptEvaluator._evaluate_dimension`) -/

/-- `ScriptEvaluator._load_prompt`: `self.dimensions[dimension]`
(`KeyError` when the dimension is not configured), then
`.get('prompt_file')` with a `ValueError` when absent.  On success the
template reference is returned; reading the template file is external
I/O performed by the prompt store. -/
def loadPrompt (dims : List (String × DimConfig)) (dimension : String) :
    Except PyError String :=
  match dims.lookup dimension with
  | none => .error ⟨"KeyError", dimension⟩
  | some cfg =>
    match cfg.prompt_file with
    | none => .error ⟨"ValueError", s!"维度 {dimension} 没有配置提示词文件"⟩
    | some pf => .ok pf

/-- The message of the `ValueError` raised when the normalized result
is not a dict:
`f"API 返回结果不是字典类型，而是 {type(result).__name__}: {result}"`. -/
def nonDictMsg (v : JsonValue) : String :=
  "API 返回结果不是字典类型，而是 " ++ pyTypeName v ++ ": " ++ pyStr v

/-- The error verdict built by the `except` handler of
`_evaluate_dimension` (and by the collection loop of `evaluate`). -/
def errVerdict (dimension name msg : String) : JsonValue :=
  .obj [("dimension", .str dimension), ("dimension_name", .str name),
    ("error", .str msg), ("total_score", .jint 0), ("max_score", .jint 100)]

/-- `ScriptEvaluator._evaluate_dimension`: loads the prompt template
(exceptions here escape: the call is outside the `try` block), invokes
`chat_with_json_response`, checks `isinstance(result, dict)`, and
converts any exception raised inside the `try` block into an error
verdict carrying the exception message. -/
def evaluateDimension (dims : List (String × DimConfig)) (dimension : String)
    (net : Except PyError (List Char)) : Except PyError JsonValue :=
  match loadPrompt dims dimension with
  | .error e => .error e
  | .ok _ =>
    let name := dimName dims dimension
    match chatWithJsonResponse net with
    | .ok v =>
      if jIsObj v then .ok v
      else .ok (errVerdict dimension name (nonDictMsg v))
    | .error e => .ok (errVerdict dimension name e.msg)

/-! ## Evaluation Orchestrator (`ScriptEvaluator.evaluate`) -/

/-- The per-future collection step of `evaluate`: a normally completed
future contributes its verdict; a future that raised contributes an
error verdict built from the exception message. -/
def storedVerdict (dims : List (String × DimConfig)) (dimension : String)
    (outcome : Except PyError JsonValue) : JsonValue :=
  match outcome with
  | .ok v => v
  | .error e => errVerdict dimension (dimName dims dimension) e.msg

/-- The dimensions an `evaluate` call works on: the explicit request,
or every configured dimension when `None` is passed. -/
def requestedDims (dims : List (String × DimConfig))
    (requested : Option (List String)) : List String :=
  requested.getD (dims.map Prod.fst)

/-- The record returned by `evaluate`: the per-dimension verdict
mapping (script identity fields are derived from the input path by
external collaborators and are not modelled) plus the overall
summary. -/
structure EvalRecord where
  dimensions : List (String × JsonValue)
  overall : Overall
deriving Repr

/-- `ScriptEvaluator.evaluate`, observed for a given completion order
of the submitted futures (`order` lists the dimension identifiers as
`as_completed` yields them): each completed future is stored keyed by
its dimension identifier, and after all are collected the overall
summary is computed from the full mapping.  `net d` is the network
outcome the API Client delivers for dimension `d`. -/
def evaluateRun (dims : List (String × DimConfig))
    (net : String → Except PyError (List Char)) (order : List String) :
    Except PyError EvalRecord :=
  let collected := order.map
    (fun d => (d, storedVerdict dims d (evaluateDimension dims d (net d))))
  match calcOverallScore dims collected with
  | .error e => .error e
  | .ok ov => .ok ⟨collected, ov⟩

/-! ## Concrete example inputs used by per-claim witnesses -/

/-- Example configuration for the C1 witness: weights 3 and 2. -/
def c1dims : List (String × DimConfig) :=
  [("a", ⟨some "A", some 3, some "pa"⟩), ("b", ⟨some "B", some 2, some "pb"⟩)]

/-- Example verdicts for the C1 witness: 80/100 and 90/100. -/
def c1results : List (String × JsonValue) :=
  [("a", .obj [("total_score", .jint 80), ("max_score", .jint 100)]),
    ("b", .obj [("total_score", .jint 90), ("max_score", .jint 100)])]

/-- Example configuration for the C10 witness. -/
def c10dims : List (String × DimConfig) :=
  [("a", ⟨some "A", some 1, some "pa"⟩)]

/-- Example verdicts for the C10 witness: a non-error verdict declaring
`max_score = 0`. -/
def c10results : List (String × JsonValue) :=
  [("a", .obj [("total_score", .jint 80), ("max_score", .jint 0)])]

/-- Example configuration for the C2 witness. -/
def c2dims : List (String × DimConfig) :=
  [("d", ⟨some "名", some 1, some "p.txt"⟩)]

/-- Example configuration for C3: the dimension has no
`prompt_file`. -/
def c3dims : List (String × DimConfig) :=
  [("dim1", ⟨some "维度一", some 1, none⟩)]

/-- Example network outcomes for C3 (the network would succeed; the
failure is configuration-side). -/
def c3net : String → Except PyError (List Char) :=
  fun _ => .ok "\x7b\x7d".toList

/-- Example configuration for the C9 witness. -/
def c9dims : List (String × DimConfig) :=
  [("a", ⟨some "A", some 3, some "pa"⟩), ("b", ⟨some "B", some 2, some "pb"⟩)]

/-- Example network outcomes for the C9 witness: every dimension's API
call fails with a timeout, exercising the containment path. -/
def c9net : String → Except PyError (List Char) :=
  fun _ => .error ⟨"TimeoutError", "API 请求超时（300秒）"⟩

/-- The record the C9 witness run produces (completion order
`["b", "a"]`, both verdicts error-marked). -/
def c9rec : EvalRecord :=
  ⟨[("b", errVerdict "b" "B" "API 请求超时（300秒）"),
    ("a", errVerdict "a" "A" "API 请求超时（300秒）")],
    ⟨round2 0, 100, [], getGrade 0⟩⟩

/-! # Theorems -/

/-! ## Score Aggregator lemmas -/

/-- The accumulation loop succeeds and computes the running sums over
the non-error entries, provided every non-error entry has numeric
score and a nonzero numeric max. -/
theorem calcLoop_spec (dims : List (String × DimConfig)) :
    ∀ (l : List (String × JsonValue)),
    (∀ p ∈ l, jHasKey p.2 "error" = false →
      (asNum (jGetD p.2 "total_score" (.jint 0))).isSome ∧
      (asNum (jGetD p.2 "max_score" (.jint 100))).isSome ∧
      asNum (jGetD p.2 "max_score" (.jint 100)) ≠ some 0) →
    ∀ (tws tw : ℚ) (ds : List Detail),
    calcLoop dims l tws tw ds =
      .ok (tws + ((nonErrEntries l).map (entryWeighted dims)).sum,
        tw + ((nonErrEntries l).map (fun p => weightOf dims p.1)).sum,
        ds ++ (nonErrEntries l).map (entryDetail dims))
  | [], _, tws, tw, ds => by simp [calcLoop, nonErrEntries]
  | (d, v) :: rest, hq, tws, tw, ds => by
    have hqrest : ∀ p ∈ rest, jHasKey p.2 "error" = false →
        (asNum (jGetD p.2 "total_score" (.jint 0))).isSome ∧
        (asNum (jGetD p.2 "max_score" (.jint 100))).isSome ∧
        asNum (jGetD p.2 "max_score" (.jint 100)) ≠ some 0 :=
      fun p hp => hq p (List.mem_cons_of_mem _ hp)
    cases herr : jHasKey v "error" with
    | true =>
      have IH := calcLoop_spec dims rest hqrest tws tw ds
      simp [calcLoop, herr, nonErrEntries, List.filter_cons, IH]
    | false =>
      obtain ⟨hs, hm, hm0⟩ := hq (d, v) (List.mem_cons_self _ _) herr
      obtain ⟨s, hs⟩ := Option.isSome_iff_exists.mp hs
      obtain ⟨m, hm⟩ := Option.isSome_iff_exists.mp hm
      have hmne : m ≠ 0 := by rintro rfl; exact hm0 hm
      have IH := calcLoop_spec dims rest hqrest
        (tws + s / m * weightOf dims d * 100) (tw + weightOf dims d)
        (ds ++ [⟨jGetD v "dimension_name" (.str d), jGetD v "total_score" (.jint 0),
          jGetD v "max_score" (.jint 100), weightOf dims d,
          s / m * weightOf dims d * 100⟩])
      have hew : entryWeighted dims (d, v) = s / m * weightOf dims d * 100 := by
        simp [entryWeighted, entryScore, entryMax, hs, hm]
      have hed : entryDetail dims (d, v) =
          ⟨jGetD v "dimension_name" (.str d), jGetD v "total_score" (.jint 0),
            jGetD v "max_score" (.jint 100), weightOf dims d,
            s / m * weightOf dims d * 100⟩ := by
        simp [entryDetail, hew]
      simp only [calcLoop, herr, Bool.false_eq_true, if_false, hs, hm]
      rw [if_neg hmne, IH]
      simp [nonErrEntries, List.filter_cons, herr, hew, hed, add_assoc]
  termination_by l => l.length

/-- The accumulation loop raises `ZeroDivisionError` whenever some
non-error entry with numeric fields has max zero. -/
theorem calcLoop_zeroDiv (dims : List (String × DimConfig)) :
    ∀ (l : List (String × JsonValue)),
    (∀ p ∈ l, jHasKey p.2 "error" = false →
      (asNum (jGetD p.2 "total_score" (.jint 0))).isSome ∧
      (asNum (jGetD p.2 "max_score" (.jint 100))).isSome) →
    (∃ p ∈ l, jHasKey p.2 "error" = false ∧
      asNum (jGetD p.2 "max_score" (.jint 100)) = some 0) →
    ∀ (tws tw : ℚ) (ds : List Detail),
    ∃ e, calcLoop dims l tws tw ds = .error e ∧ e.pyType = "ZeroDivisionError"
  | [], _, hz, _, _, _ => by simp at hz
  | (d, v) :: rest, hq, hz, tws, tw, ds => by
    have hqrest : ∀ p ∈ rest, jHasKey p.2 "error" = false →
        (asNum (jGetD p.2 "total_score" (.jint 0))).isSome ∧
        (asNum (jGetD p.2 "max_score" (.jint 100))).isSome :=
      fun p hp => hq p (List.mem_cons_of_mem _ hp)
    cases herr : jHasKey v "error" with
    | true =>
      have hzrest : ∃ p ∈ rest, jHasKey p.2 "error" = false ∧
          asNum (jGetD p.2 "max_score" (.jint 100)) = some 0 := by
        obtain ⟨p, hp, hpe, hpz⟩ := hz
        rcases List.mem_cons.mp hp with rfl | hp2
        · rw [herr] at hpe; exact absurd hpe (by simp)
        · exact ⟨p, hp2, hpe, hpz⟩
      obtain ⟨e, he, hty⟩ := calcLoop_zeroDiv dims rest hqrest hzrest tws tw ds
      exact ⟨e, by simp [calcLoop, herr, he], hty⟩
    | false =>
      obtain ⟨hs, hm⟩ := hq (d, v) (List.mem_cons_self _ _) herr
      obtain ⟨s, hs⟩ := Option.isSome_iff_exists.mp hs
      obtain ⟨m, hm⟩ := Option.isSome_iff_exists.mp hm
      by_cases hm0 : m = 0
      · subst hm0
        refine ⟨zeroDivErr (jGetD v "total_score" (.jint 0)) (jGetD v "max_score" (.jint 100)), ?_, ?_⟩
        · simp only [calcLoop, herr, Bool.false_eq_true, if_false, hs, hm]
          simp
        · unfold zeroDivErr; split <;> rfl
      · have hzrest : ∃ p ∈ rest, jHasKey p.2 "error" = false ∧
            asNum (jGetD p.2 "max_score" (.jint 100)) = some 0 := by
          obtain ⟨p, hp, hpe, hpz⟩ := hz
          rcases List.mem_cons.mp hp with rfl | hp2
          · rw [hm] at hpz; exact absurd (Option.some_injective _ hpz) hm0
          · exact ⟨p, hp2, hpe, hpz⟩
        obtain ⟨e, he, hty⟩ := calcLoop_zeroDiv dims rest hqrest hzrest
          (tws + s / m * weightOf dims d * 100) (tw + weightOf dims d)
          (ds ++ [⟨jGetD v "dimension_name" (.str d), jGetD v "total_score" (.jint 0),
            jGetD v "max_score" (.jint 100), weightOf dims d,
            s / m * weightOf dims d * 100⟩])
        refine ⟨e, ?_, hty⟩
        simp only [calcLoop, herr, Bool.false_eq_true, if_false, hs, hm]
        simp [hm0, he]
  termination_by l => l.length

/-- Rounding zero gives zero. -/
theorem round2_zero : round2 0 = 0 := by simp [round2]

/-! ## C1 -/

/-- C1: `_calculate_overall_score` excludes every verdict carrying an
`"error"` key from both numerator and denominator; over the remaining
verdicts (numeric fields, nonzero max, nonnegative configured weights)
it returns `round(Σ (sᵢ/maxᵢ · wᵢ · 100) / Σ wᵢ, 2)` when at least one
non-error verdict exists, and `0` — without raising — when none
exist. -/
theorem C1_weighted_score_aggregation (dims : List (String × DimConfig))
    (results : List (String × JsonValue))
    (hq : ∀ p ∈ results, jHasKey p.2 "error" = false →
      (asNum (jGetD p.2 "total_score" (.jint 0))).isSome ∧
      (asNum (jGetD p.2 "max_score" (.jint 100))).isSome ∧
      asNum (jGetD p.2 "max_score" (.jint 100)) ≠ some 0)
    (hw : ∀ p ∈ results, 0 ≤ weightOf dims p.1) :
    ∃ o : Overall, calcOverallScore dims results = .ok o ∧
      (nonErrEntries results ≠ [] →
        o.total_score =
          round2 (((nonErrEntries results).map (entryWeighted dims)).sum /
            ((nonErrEntries results).map (fun p => weightOf dims p.1)).sum)) ∧
      (nonErrEntries results = [] → o.total_score = 0) := by
  have key := calcLoop_spec dims results hq 0 0 []
  have hden : 0 ≤ ((nonErrEntries results).map (fun p => weightOf dims p.1)).sum := by
    apply List.sum_nonneg
    intro x hx
    obtain ⟨p, hp, rfl⟩ := List.mem_map.mp hx
    exact hw p (List.mem_of_mem_filter hp)
  simp only [calcOverallScore, key, zero_add, List.nil_append]
  refine ⟨_, rfl, ?_, ?_⟩
  · intro _
    rcases lt_or_eq_of_le hden with hpos | hzero
    · simp [hpos]
    · simp [← hzero, div_zero, round2_zero]
  · intro hempty
    simp [hempty, round2_zero]

/-- Witness for C1 at a concrete two-dimension configuration
(weights 0.6 and 0.4, scores 80/100 and 90/100, overall 84). -/
theorem C1_weighted_score_aggregation_witness :
    (∀ p ∈ c1results, jHasKey p.2 "error" = false →
      (asNum (jGetD p.2 "total_score" (.jint 0))).isSome ∧
      (asNum (jGetD p.2 "max_score" (.jint 100))).isSome ∧
      asNum (jGetD p.2 "max_score" (.jint 100)) ≠ some 0) ∧
    (∀ p ∈ c1results, 0 ≤ weightOf c1dims p.1) ∧
    (∃ o : Overall, calcOverallScore c1dims c1results = .ok o ∧
      (nonErrEntries c1results ≠ [] →
        o.total_score =
          round2 (((nonErrEntries c1results).map (entryWeighted c1dims)).sum /
            ((nonErrEntries c1results).map (fun p => weightOf c1dims p.1)).sum)) ∧
      (nonErrEntries c1results = [] → o.total_score = 0)) :=
  ⟨by decide, by decide,
    C1_weighted_score_aggregation c1dims c1results (by decide) (by decide)⟩

/-! ## C10 -/

/-- C10: the aggregator divides by each non-error verdict's own
`max_score` with no guard — it raises `ZeroDivisionError` whenever
some non-error verdict (with numeric fields) has `max_score == 0`, and
returns a summary when every non-error verdict's max is nonzero. -/
theorem C10_division_by_zero_max (dims : List (String × DimConfig))
    (results : List (String × JsonValue))
    (hq : ∀ p ∈ results, jHasKey p.2 "error" = false →
      (asNum (jGetD p.2 "total_score" (.jint 0))).isSome ∧
      (asNum (jGetD p.2 "max_score" (.jint 100))).isSome) :
    ((∃ p ∈ results, jHasKey p.2 "error" = false ∧
        asNum (jGetD p.2 "max_score" (.jint 100)) = some 0) →
      ∃ e, calcOverallScore dims results = .error e ∧ e.pyType = "ZeroDivisionError") ∧
    ((∀ p ∈ results, jHasKey p.2 "error" = false →
        asNum (jGetD p.2 "max_score" (.jint 100)) ≠ some 0) →
      ∃ o, calcOverallScore dims results = .ok o) := by
  constructor
  · intro hz
    obtain ⟨e, he, hty⟩ := calcLoop_zeroDiv dims results hq hz 0 0 []
    exact ⟨e, by unfold calcOverallScore; rw [he], hty⟩
  · intro hnz
    have key := calcLoop_spec dims results
      (fun p hp hpe => ⟨(hq p hp hpe).1, (hq p hp hpe).2, hnz p hp hpe⟩) 0 0 []
    exact ⟨_, by unfold calcOverallScore; rw [key]⟩

/-- Witness for C10: one non-error verdict declaring `max_score = 0`
makes the aggregation raise `ZeroDivisionError`. -/
theorem C10_division_by_zero_max_witness :
    (∀ p ∈ c10results, jHasKey p.2 "error" = false →
      (asNum (jGetD p.2 "total_score" (.jint 0))).isSome ∧
      (asNum (jGetD p.2 "max_score" (.jint 100))).isSome) ∧
    (∃ e, calcOverallScore c10dims c10results = .error e ∧
      e.pyType = "ZeroDivisionError") :=
  ⟨by decide,
    (C10_division_by_zero_max c10dims c10results (by decide)).1 (by decide)⟩

/-! ## C7

The general inclusive-lower-bound rule of the claim matches the code,
but the claim's particular example `69.99 → B` contradicts both the
rule and the code: `69.99 < 70`, so `_get_grade` returns `"C"`. -/

/-- C7 counterexample: the claim asserts that the overall score
`69.99` yields grade `B`, but `_get_grade` returns `C` there. -/
theorem C7_grade_counterexample :
    getGrade (69.99 : ℚ) = "C" ∧ "C" ≠ "B" := by
  constructor
  · norm_num [getGrade]
  · decide

/-- C7 (amended): `_get_grade` uses inclusive lower bounds
`90/80/70/60` for `S/A/B/C` with `D` below, and in particular maps
`90 → S`, `89.99 → A`, `80 → A`, `69.99 → C` (not `B`),
`59.99 → D`. -/
theorem C7_grade_boundaries :
    (∀ x : ℚ, 90 ≤ x → getGrade x = "S") ∧
    (∀ x : ℚ, 80 ≤ x → x < 90 → getGrade x = "A") ∧
    (∀ x : ℚ, 70 ≤ x → x < 80 → getGrade x = "B") ∧
    (∀ x : ℚ, 60 ≤ x → x < 70 → getGrade x = "C") ∧
    (∀ x : ℚ, x < 60 → getGrade x = "D") ∧
    getGrade 90 = "S" ∧ getGrade (89.99 : ℚ) = "A" ∧ getGrade 80 = "A" ∧
    getGrade (69.99 : ℚ) = "C" ∧ getGrade (59.99 : ℚ) = "D" := by
  refine ⟨?_, ?_, ?_, ?_, ?_, ?_, ?_, ?_, ?_, ?_⟩ <;>
    first
    | (intro x h1 h2; unfold getGrade; split_ifs <;> first | rfl | linarith)
    | (intro x h1; unfold getGrade; split_ifs <;> first | rfl | linarith)
    | norm_num [getGrade]

/-! ## API Client retry lemmas -/

/-- The retry loop under persistent timeout over the index block
`range' i n` ending at `lastIdx`: every attempt is made, a sleep of
`2 ^ j` seconds happens after every attempt except the last, and a
`TimeoutError` is finally raised. -/
theorem runAttempts_timeout (outcome : ℕ → AttemptOutcome) (t lastIdx : ℕ)
    (hto : ∀ i, outcome i = .timeout) :
    ∀ (n i : ℕ), 1 ≤ n → i + n = lastIdx + 1 →
    runAttempts outcome t lastIdx (List.range' i n) =
      ⟨.error ⟨"TimeoutError", s!"API 请求超时（{t}秒）"⟩, n,
        (List.range' i (n - 1)).map (fun j => 2 ^ j)⟩
  | 0, _, h1, _ => by omega
  | 1, i, _, h2 => by
    have hi : i = lastIdx := by omega
    simp [List.range'_one, runAttempts, hto, hi]
  | n + 2, i, _, h2 => by
    have hne : i ≠ lastIdx := by omega
    have IH := runAttempts_timeout outcome t lastIdx hto (n + 1) (i + 1)
      (by omega) (by omega)
    rw [List.range'_succ, runAttempts, hto, if_neg hne, IH]
    rfl

/-- The retry loop under a persistent HTTP error raises `RuntimeError`
carrying the response body. -/
theorem runAttempts_http (outcome : ℕ → AttemptOutcome) (t lastIdx : ℕ)
    (body : String) (hto : ∀ i, outcome i = .httpError body) :
    ∀ (n i : ℕ), 1 ≤ n → i + n = lastIdx + 1 →
    (runAttempts outcome t lastIdx (List.range' i n)).result =
      .error ⟨"RuntimeError", "API 请求失败: " ++ body⟩
  | 0, _, h1, _ => by omega
  | 1, i, _, h2 => by
    have hi : i = lastIdx := by omega
    simp [List.range'_one, runAttempts, hto, hi]
  | n + 2, i, _, h2 => by
    have hne : i ≠ lastIdx := by omega
    have IH := runAttempts_http outcome t lastIdx body hto (n + 1) (i + 1)
      (by omega) (by omega)
    rw [List.range'_succ, runAttempts, hto]
    simpa [hne] using IH

/-- The retry loop under a persistent transport failure raises
`RuntimeError` with the network-error message. -/
theorem runAttempts_transport (outcome : ℕ → AttemptOutcome) (t lastIdx : ℕ)
    (m : String) (hto : ∀ i, outcome i = .transportError m) :
    ∀ (n i : ℕ), 1 ≤ n → i + n = lastIdx + 1 →
    (runAttempts outcome t lastIdx (List.range' i n)).result =
      .error ⟨"RuntimeError", "网络请求错误: " ++ m⟩
  | 0, _, h1, _ => by omega
  | 1, i, _, h2 => by
    have hi : i = lastIdx := by omega
    simp [List.range'_one, runAttempts, hto, hi]
  | n + 2, i, _, h2 => by
    have hne : i ≠ lastIdx := by omega
    have IH := runAttempts_transport outcome t lastIdx m hto (n + 1) (i + 1)
      (by omega) (by omega)
    rw [List.range'_succ, runAttempts, hto]
    simpa [hne] using IH

/-! ## C6 -/

/-- C6: under persistent timeout, `_make_request` makes exactly
`max_retries` HTTP attempts, sleeps between consecutive attempts but
not after the last (`max_retries - 1` sleeps), with delays
`2^0, 2^1, …` seconds — strictly increasing, doubling per attempt
starting at 1 second — and finally raises a `TimeoutError`. -/
theorem C6_retry_backoff (outcome : ℕ → AttemptOutcome) (t maxRetries : ℕ)
    (hret : 1 ≤ maxRetries) (hto : ∀ i, outcome i = .timeout) :
    makeRequest outcome t maxRetries =
      ⟨.error ⟨"TimeoutError", s!"API 请求超时（{t}秒）"⟩, maxRetries,
        (List.range (maxRetries - 1)).map (fun j => 2 ^ j)⟩ ∧
    ((List.range (maxRetries - 1)).map (fun j => 2 ^ j)).length = maxRetries - 1 ∧
    List.Pairwise (· < ·) ((List.range (maxRetries - 1)).map (fun j => 2 ^ j)) ∧
    (∀ k < maxRetries - 1,
      ((List.range (maxRetries - 1)).map (fun j => (2 : ℕ) ^ j)).getD k 0 = 2 ^ k) := by
  refine ⟨?_, by simp, ?_, ?_⟩
  · unfold makeRequest
    rw [List.range_eq_range', List.range_eq_range']
    exact runAttempts_timeout outcome t (maxRetries - 1) hto maxRetries 0
      hret (by omega)
  · exact (List.pairwise_lt_range _).map _
      (fun a b h => Nat.pow_lt_pow_right (by norm_num) h)
  · intro k hk
    rw [List.getD_eq_getElem?_getD, List.getElem?_map, List.getElem?_range (by simpa)]
    rfl

/-- Witness for C6 at the default `max_retries = 3` and timeout 300:
three attempts, sleeps `[1, 2]`, then `TimeoutError`. -/
theorem C6_retry_backoff_witness :
    makeRequest (fun _ => .timeout) 300 3 =
      ⟨.error ⟨"TimeoutError", "API 请求超时（300秒）"⟩, 3,
        (List.range 2).map (fun j => 2 ^ j)⟩ ∧
    List.Pairwise (· < ·) ((List.range 2).map (fun j => (2 : ℕ) ^ j)) :=
  ⟨((C6_retry_backoff (fun _ => .timeout) 300 3 (by norm_num) (fun _ => rfl)).1 : _),
    (C6_retry_backoff (fun _ => .timeout) 300 3 (by norm_num) (fun _ => rfl)).2.2.1⟩

/-! ## C8

The code raises `TimeoutError` on persistent timeout but a plain
`RuntimeError` for both the non-2xx case and the transport-failure
case: the latter two are NOT distinguishable by exception type, only
by their message prefixes, refuting the claim that the three
exhaustion outcomes are mutually distinguishable error types. -/

/-- C8 counterexample: a persistent HTTP error and a persistent
transport failure raise errors of the same Python exception type
(`RuntimeError`), so the three exhaustion outcomes are not mutually
distinguishable by type. -/
theorem C8_error_types_counterexample :
    (makeRequest (fun _ => .httpError "boom") 300 3).result =
      .error ⟨"RuntimeError", "API 请求失败: boom"⟩ ∧
    (makeRequest (fun _ => .transportError "down") 300 3).result =
      .error ⟨"RuntimeError", "网络请求错误: down"⟩ ∧
    (PyError.mk "RuntimeError" "API 请求失败: boom").pyType =
      (PyError.mk "RuntimeError" "网络请求错误: down").pyType := by
  refine ⟨rfl, rfl, rfl⟩

/-- C8 (amended): after exhausting retries the client raises
`TimeoutError` on persistent timeout, `RuntimeError` with message
`"API 请求失败: " ++ body` (carrying the response body) on a persistent
non-2xx status, and `RuntimeError` with message
`"网络请求错误: " ++ m` on a persistent transport failure; the timeout
case is a distinct exception type, while the other two share
`RuntimeError` and are distinguishable only by message prefix. -/
theorem C8_error_types (t maxRetries : ℕ) (hret : 1 ≤ maxRetries) :
    (∀ outcome : ℕ → AttemptOutcome, (∀ i, outcome i = .timeout) →
      ∃ m, (makeRequest outcome t maxRetries).result = .error ⟨"TimeoutError", m⟩) ∧
    (∀ (outcome : ℕ → AttemptOutcome) (body : String),
      (∀ i, outcome i = .httpError body) →
      (makeRequest outcome t maxRetries).result =
        .error ⟨"RuntimeError", "API 请求失败: " ++ body⟩) ∧
    (∀ (outcome : ℕ → AttemptOutcome) (m : String),
      (∀ i, outcome i = .transportError m) →
      (makeRequest outcome t maxRetries).result =
        .error ⟨"RuntimeError", "网络请求错误: " ++ m⟩) ∧
    "TimeoutError" ≠ "RuntimeError" ∧
    (∀ body m : String, "API 请求失败: " ++ body ≠ "网络请求错误: " ++ m) := by
  refine ⟨?_, ?_, ?_, by decide, ?_⟩
  · intro outcome hto
    refine ⟨s!"API 请求超时（{t}秒）", ?_⟩
    unfold makeRequest
    rw [List.range_eq_range',
      runAttempts_timeout outcome t (maxRetries - 1) hto maxRetries 0 hret (by omega)]
  · intro outcome body hh
    unfold makeRequest
    rw [List.range_eq_range']
    exact runAttempts_http outcome t (maxRetries - 1) body hh maxRetries 0 hret (by omega)
  · intro outcome m hh
    unfold makeRequest
    rw [List.range_eq_range']
    exact runAttempts_transport outcome t (maxRetries - 1) m hh maxRetries 0 hret (by omega)
  · intro body m h
    have h1 : ("API 请求失败: " ++ body).data.head? = some 'A' := by
      rw [String.data_append]; rfl
    have h2 : ("网络请求错误: " ++ m).data.head? = some '网' := by
      rw [String.data_append]; rfl
    rw [h] at h1
    rw [h1] at h2
    simp at h2

/-- Witness for C8 at concrete outcomes. -/
theorem C8_error_types_witness :
    (∃ m, (makeRequest (fun _ => .timeout) 300 3).result = .error ⟨"TimeoutError", m⟩) ∧
    (makeRequest (fun _ => .httpError "b1") 300 3).result =
      .error ⟨"RuntimeError", "API 请求失败: b1"⟩ ∧
    "API 请求失败: b1" ≠ "网络请求错误: m1" :=
  ⟨(C8_error_types 300 3 (by norm_num)).1 (fun _ => .timeout) (fun _ => rfl),
    (C8_error_types 300 3 (by norm_num)).2.1 (fun _ => .httpError "b1") "b1" (fun _ => rfl),
    (C8_error_types 300 3 (by norm_num)).2.2.2.2 "b1" "m1"⟩

/-! ## Cleaning-step lemmas -/

/-- A pattern is a prefix of itself followed by anything. -/
theorem startsWithL_append_self : ∀ p r : List Char, startsWithL p (p ++ r) = true
  | [], _ => rfl
  | c :: p, r => by simp [startsWithL, startsWithL_append_self p r]

/-- Prefix tests cancel a common leading block. -/
theorem startsWithL_append_cancel :
    ∀ a b s : List Char, startsWithL (a ++ b) (a ++ s) = startsWithL b s
  | [], _, _ => rfl
  | c :: a, b, s => by simp [startsWithL, startsWithL_append_cancel a b s]

/-- A test for a longer pattern entails the test for its prefix. -/
theorem startsWithL_mono :
    ∀ a b s : List Char, startsWithL (a ++ b) s = true → startsWithL a s = true
  | [], _, _, _ => rfl
  | c :: a, b, s, h => by
    cases s with
    | nil => exact absurd h (by simp [startsWithL])
    | cons x s =>
      simp only [List.cons_append, startsWithL, Bool.and_eq_true] at h ⊢
      exact ⟨h.1, startsWithL_mono a b s h.2⟩

/-- `dropWhile` is the identity when the head fails the predicate. -/
theorem dropWhile_eq_self_of_head (p : Char → Bool) (l : List Char)
    (h : match l.head? with | some c => p c = false | none => True) :
    l.dropWhile p = l := by
  cases l with
  | nil => rfl
  | cons a as =>
    simp only [List.head?_cons] at h
    simp [List.dropWhile_cons, h]

/-- The head of a `dropWhile` result fails the predicate. -/
theorem dropWhile_head_false (p : Char → Bool) (l : List Char) (c : Char)
    (h : (l.dropWhile p).head? = some c) : p c = false := by
  have := List.head?_dropWhile_not p l
  rw [h] at this
  exact this

/-- `str.strip` is the identity when neither end is whitespace. -/
theorem pyStrip_eq_self (l : List Char)
    (h1 : match l.head? with | some c => isPySpace c = false | none => True)
    (h2 : match l.getLast? with | some c => isPySpace c = false | none => True) :
    pyStrip l = l := by
  unfold pyStrip
  rw [dropWhile_eq_self_of_head _ _ h1]
  rw [dropWhile_eq_self_of_head _ _ (by rw [List.head?_reverse]; exact h2)]
  exact List.reverse_reverse l

/-- `str.strip` is idempotent. -/
theorem pyStrip_idem (l : List Char) : pyStrip (pyStrip l) = pyStrip l := by
  apply pyStrip_eq_self
  · show match (pyStrip l).head? with | some c => isPySpace c = false | none => True
    unfold pyStrip
    rw [List.head?_reverse]
    cases hB : (((l.dropWhile isPySpace).reverse).dropWhile isPySpace).getLast? with
    | none => trivial
    | some c =>
      obtain ⟨t, ht⟩ := List.dropWhile_suffix (l := (l.dropWhile isPySpace).reverse) isPySpace
      have hA : (l.dropWhile isPySpace).reverse.getLast? = some c := by
        rw [← ht, List.getLast?_append, hB, Option.or]
      rw [List.getLast?_reverse] at hA
      exact dropWhile_head_false _ _ _ hA
  · show match (pyStrip l).getLast? with | some c => isPySpace c = false | none => True
    unfold pyStrip
    rw [List.getLast?_reverse]
    cases hB : (((l.dropWhile isPySpace).reverse).dropWhile isPySpace).head? with
    | none => trivial
    | some c => exact dropWhile_head_false _ _ _ hB

/-- Stripping does not touch text wrapped in `"```json" … "```"`. -/
theorem pyStrip_fenceJson (u : List Char) :
    pyStrip (fenceJson7 ++ (u ++ fence3)) = fenceJson7 ++ (u ++ fence3) := by
  apply pyStrip_eq_self
  · exact rfl
  · rw [List.getLast?_append, List.getLast?_append]
    exact rfl

/-- Stripping does not touch text wrapped in bare fences. -/
theorem pyStrip_fenceBare (u : List Char) :
    pyStrip (fence3 ++ (u ++ fence3)) = fence3 ++ (u ++ fence3) := by
  apply pyStrip_eq_self
  · exact rfl
  · rw [List.getLast?_append, List.getLast?_append]
    exact rfl

/-- `endswith` holds for an appended fence. -/
theorem endsWithL_append_fence (u : List Char) :
    endsWithL fence3 (u ++ fence3) = true := by
  unfold endsWithL
  rw [List.reverse_append]
  exact startsWithL_append_self _ _

/-- Removing the trailing three characters of `u ++ fence3`. -/
theorem take_fence (u : List Char) :
    (u ++ fence3).take ((u ++ fence3).length - 3) = u := by
  rw [List.length_append, show fence3.length = 3 from rfl, Nat.add_sub_cancel]
  exact List.take_left u fence3

/-- Cleaning text wrapped in a `json`-tagged fence pair recovers the
stripped inner text. -/
theorem cleanResponse_fenceJson (u : List Char) :
    cleanResponse (fenceJson7 ++ u ++ fence3) = pyStrip u := by
  have hdrop : (fenceJson7 ++ (u ++ fence3)).drop 7 = u ++ fence3 :=
    List.drop_left' (by rfl)
  simp only [cleanResponse, List.append_assoc, pyStrip_fenceJson,
    startsWithL_append_self, if_true, hdrop, endsWithL_append_fence, take_fence]

/-- Cleaning text wrapped in a bare fence pair recovers the stripped
inner text, provided the inner text does not itself begin with the
characters `json` once the trailing fence is appended. -/
theorem cleanResponse_fenceBare (u : List Char)
    (hj : startsWithL "json".toList (u ++ fence3) = false) :
    cleanResponse (fence3 ++ u ++ fence3) = pyStrip u := by
  have h7 : startsWithL fenceJson7 (fence3 ++ (u ++ fence3)) = false := by
    rw [show fenceJson7 = fence3 ++ "json".toList from rfl,
      startsWithL_append_cancel]
    exact hj
  have hdrop : (fence3 ++ (u ++ fence3)).drop 3 = u ++ fence3 :=
    List.drop_left' (by rfl)
  simp only [cleanResponse, List.append_assoc, pyStrip_fenceBare, h7,
    Bool.false_eq_true, if_false, startsWithL_append_self, if_true, hdrop,
    endsWithL_append_fence, take_fence]

/-- Cleaning already-fence-free text just strips it. -/
theorem cleanResponse_plain (u : List Char)
    (h1 : startsWithL fence3 (pyStrip u) = false)
    (h2 : endsWithL fence3 (pyStrip u) = false) :
    cleanResponse u = pyStrip u := by
  have h7 : startsWithL fenceJson7 (pyStrip u) = false := by
    cases h : startsWithL fenceJson7 (pyStrip u) with
    | false => rfl
    | true =>
      have := startsWithL_mono fence3 "json".toList (pyStrip u)
        (by rw [show fence3 ++ "json".toList = fenceJson7 from rfl]; exact h)
      rw [this] at h1
      exact absurd h1 (by simp)
  simp only [cleanResponse, h7, h1, h2, Bool.false_eq_true, if_false]
  exact pyStrip_idem u

/-! ## C4 -/

/-- C4: after cleaning, a strict parse yielding a non-empty list makes
the normalizer return the first element; a parsed value that is
neither such a list nor a dict yields the error-shaped object
`nonDictErrObj` (error text naming the unexpected type, `raw_value`
holding the parsed value) rather than the bare value; and the bare
scalar text `"42"` yields an error object whose `raw_value` is
numerically `42.0`. -/
theorem C4_normalizer_list_and_scalar :
    (∀ (raw : List Char) (x : JsonValue) (xs : List JsonValue),
      jsonLoads (cleanResponse raw) = some (.arr (x :: xs)) →
      normalizeResponse raw = .ok x) ∧
    (∀ (raw : List Char) (v : JsonValue),
      jsonLoads (cleanResponse raw) = some v →
      (∀ x xs, v ≠ .arr (x :: xs)) → jIsObj v = false →
      normalizeResponse raw = .ok (nonDictErrObj v) ∧
      jHasKey (nonDictErrObj v) "error" = true ∧
      jGetD (nonDictErrObj v) "raw_value" .null = v) ∧
    (normalizeResponse "42".toList = .ok (nonDictErrObj (.jint 42)) ∧
      asNum (jGetD (nonDictErrObj (.jint 42)) "raw_value" .null) = some (42.0 : ℚ)) := by
  refine ⟨?_, ?_, ?_, ?_⟩
  · intro raw x xs h
    simp [normalizeResponse, h]
  · intro raw v h hne hobj
    have hraw : jGetD (nonDictErrObj v) "raw_value" .null = v := by
      simp [nonDictErrObj, jGetD, jFind]
    have herr : jHasKey (nonDictErrObj v) "error" = true := by
      simp [nonDictErrObj, jHasKey, jFind]
    refine ⟨?_, herr, hraw⟩
    cases v with
    | arr xs =>
      cases xs with
      | nil => simp [normalizeResponse, h, jIsObj]
      | cons x xs => exact absurd rfl (hne x xs)
    | obj fs => simp [jIsObj] at hobj
    | null => simp [normalizeResponse, h, jIsObj]
    | bool b => simp [normalizeResponse, h, jIsObj]
    | jint n => simp [normalizeResponse, h, jIsObj]
    | jfloat q => simp [normalizeResponse, h, jIsObj]
    | str s => simp [normalizeResponse, h, jIsObj]
  · rfl
  · rw [show jGetD (nonDictErrObj (.jint 42)) "raw_value" .null = JsonValue.jint 42
      from rfl]
    norm_num [asNum]

/-- Witness for C4: a singleton array wrapper is unwrapped to its
element, and a parsed scalar `true` becomes an error-shaped object. -/
theorem C4_normalizer_list_and_scalar_witness :
    normalizeResponse "[\x7b\"a\": 1\x7d]".toList = .ok (.obj [("a", .jint 1)]) ∧
    normalizeResponse "true".toList = .ok (nonDictErrObj (.bool true)) :=
  ⟨C4_normalizer_list_and_scalar.1 "[\x7b\"a\": 1\x7d]".toList
      (.obj [("a", .jint 1)]) [] rfl,
    (C4_normalizer_list_and_scalar.2.1 "true".toList (.bool true) rfl
      (by intro x xs h; cases h) rfl).1⟩

/-! ## C5

The code strips a leading `"```json"` or a bare leading `"```"` and a
trailing `"```"`.  A fence with any OTHER language tag (for example
`"```python"`) keeps the tag text: the cleaned text then fails to
parse, refuting the claim that a fence with ANY language tag is
stripped.  The amended claim covers the `json` tag and tag-less
fences. -/

/-- C5 counterexample: a fenced object with language tag `python` does
NOT normalize to the same structured object as the unfenced text — the
tag is not stripped and parsing fails. -/
theorem C5_fence_counterexample :
    normalizeResponse "```python\n\x7b\"a\": 1\x7d\n```".toList =
      .error (parseFailErr "```python\n\x7b\"a\": 1\x7d\n```".toList
        "python\n\x7b\"a\": 1\x7d".toList) ∧
    normalizeResponse "\x7b\"a\": 1\x7d".toList = .ok (.obj [("a", .jint 1)]) ∧
    (Except.error (parseFailErr "```python\n\x7b\"a\": 1\x7d\n```".toList
        "python\n\x7b\"a\": 1\x7d".toList) : Except PyError JsonValue) ≠
      .ok (.obj [("a", .jint 1)]) := by
  refine ⟨rfl, rfl, ?_⟩
  intro h
  cases h

/-- C5 (amended): for raw text wrapped in a single fence pair whose
language tag is exactly `json`, or wrapped in a tag-less fence pair
(with content not beginning with the characters `json`), the
normalizer strips the fence markers (and the `json` tag) and a fenced
parseable text normalizes exactly like the unfenced text; fences with
other language tags are not stripped. -/
theorem C5_fence_stripping (u : List Char)
    (h1 : startsWithL fence3 (pyStrip u) = false)
    (h2 : endsWithL fence3 (pyStrip u) = false) :
    cleanResponse (fenceJson7 ++ u ++ fence3) = pyStrip u ∧
    (startsWithL "json".toList (u ++ fence3) = false →
      cleanResponse (fence3 ++ u ++ fence3) = pyStrip u) ∧
    cleanResponse u = pyStrip u ∧
    (∀ v, jsonLoads (pyStrip u) = some v →
      normalizeResponse (fenceJson7 ++ u ++ fence3) = normalizeResponse u) := by
  refine ⟨cleanResponse_fenceJson u, fun hj => cleanResponse_fenceBare u hj,
    cleanResponse_plain u h1 h2, ?_⟩
  intro v hv
  simp only [normalizeResponse, cleanResponse_fenceJson u,
    cleanResponse_plain u h1 h2, hv]
  cases v with
  | arr xs => cases xs <;> rfl
  | null => rfl
  | bool b => rfl
  | jint n => rfl
  | jfloat q => rfl
  | str s => rfl
  | obj fs => rfl

/-- Witness for C5 at a concrete fenced object. -/
theorem C5_fence_stripping_witness :
    startsWithL fence3 (pyStrip "\x7b\"a\": 1\x7d".toList) = false ∧
    endsWithL fence3 (pyStrip "\x7b\"a\": 1\x7d".toList) = false ∧
    cleanResponse (fenceJson7 ++ "\x7b\"a\": 1\x7d".toList ++ fence3) =
      pyStrip "\x7b\"a\": 1\x7d".toList ∧
    normalizeResponse (fenceJson7 ++ "\x7b\"a\": 1\x7d".toList ++ fence3) =
      normalizeResponse "\x7b\"a\": 1\x7d".toList :=
  ⟨rfl, rfl,
    (C5_fence_stripping "\x7b\"a\": 1\x7d".toList rfl rfl).1,
    (C5_fence_stripping "\x7b\"a\": 1\x7d".toList rfl rfl).2.2.2
      (.obj [("a", .jint 1)]) rfl⟩

/-- Witness for C7 at concrete mid-band scores. -/
theorem C7_grade_boundaries_witness :
    getGrade 95 = "S" ∧ getGrade 85 = "A" ∧ getGrade 75 = "B" ∧
    getGrade 65 = "C" ∧ getGrade 50 = "D" :=
  ⟨C7_grade_boundaries.1 95 (by norm_num),
    C7_grade_boundaries.2.1 85 (by norm_num) (by norm_num),
    C7_grade_boundaries.2.2.1 75 (by norm_num) (by norm_num),
    C7_grade_boundaries.2.2.2.1 65 (by norm_num) (by norm_num),
    C7_grade_boundaries.2.2.2.2.1 50 (by norm_num)⟩

/-! ## C2 -/

/-- C2: when the requested dimension is configured with a prompt
template, `_evaluate_dimension` never propagates a failure of the API
Client or the normalization, nor a non-dict normalized result: it
returns an error verdict carrying the failure message, with
`total_score = 0`, `max_score = 100`, and the dimension's display name
preserved. -/
theorem C2_dimension_error_containment (dims : List (String × DimConfig))
    (dimension : String) (cfg : DimConfig) (pf : String)
    (hcfg : dims.lookup dimension = some cfg) (hpf : cfg.prompt_file = some pf)
    (net : Except PyError (List Char)) :
    (∀ e, net = .error e →
      evaluateDimension dims dimension net =
        .ok (errVerdict dimension (cfg.name.getD dimension) e.msg)) ∧
    (∀ raw e, net = .ok raw → normalizeResponse raw = .error e →
      evaluateDimension dims dimension net =
        .ok (errVerdict dimension (cfg.name.getD dimension) e.msg)) ∧
    (∀ raw v, net = .ok raw → normalizeResponse raw = .ok v → jIsObj v = false →
      evaluateDimension dims dimension net =
        .ok (errVerdict dimension (cfg.name.getD dimension) (nonDictMsg v))) ∧
    (∀ name msg, jHasKey (errVerdict dimension name msg) "error" = true ∧
      jGetD (errVerdict dimension name msg) "error" .null = .str msg ∧
      jGetD (errVerdict dimension name msg) "total_score" .null = .jint 0 ∧
      jGetD (errVerdict dimension name msg) "max_score" .null = .jint 100 ∧
      jGetD (errVerdict dimension name msg) "dimension_name" .null = .str name) := by
  have hname : dimName dims dimension = cfg.name.getD dimension := by
    simp [dimName, hcfg]
  have hload : loadPrompt dims dimension = .ok pf := by
    simp [loadPrompt, hcfg, hpf]
  refine ⟨?_, ?_, ?_, ?_⟩
  · rintro e rfl
    simp [evaluateDimension, hload, chatWithJsonResponse, hname]
  · rintro raw e rfl hn
    simp [evaluateDimension, hload, chatWithJsonResponse, hn, hname]
  · rintro raw v rfl hv hobj
    simp [evaluateDimension, hload, chatWithJsonResponse, hv, hobj, hname]
  · intro name msg
    exact ⟨rfl, rfl, rfl, rfl, rfl⟩

/-- Witness for C2: a `TimeoutError` from the API Client is contained
as an error verdict. -/
theorem C2_dimension_error_containment_witness :
    c2dims.lookup "d" = some ⟨some "名", some 1, some "p.txt"⟩ ∧
    evaluateDimension c2dims "d" (.error ⟨"TimeoutError", "API 请求超时（300秒）"⟩) =
      .ok (errVerdict "d" "名" "API 请求超时（300秒）") ∧
    jGetD (errVerdict "d" "名" "API 请求超时（300秒）") "total_score" .null = .jint 0 ∧
    jGetD (errVerdict "d" "名" "API 请求超时（300秒）") "max_score" .null = .jint 100 :=
  ⟨rfl,
    (C2_dimension_error_containment c2dims "d" ⟨some "名", some 1, some "p.txt"⟩
      "p.txt" rfl rfl _).1 ⟨"TimeoutError", "API 请求超时（300秒）"⟩ rfl,
    rfl, rfl⟩

/-! ## C3

`_load_prompt` does raise `ValueError` when a dimension has no
`prompt_file`, and the call sits outside the `try` block of
`_evaluate_dimension` — but the collection loop of `evaluate` catches
the exception raised by `future.result()` (evaluator.py lines 362-376)
and stores an error-marked verdict for that dimension.  The error does
NOT escape `evaluate` to its caller, refuting the claim. -/

/-- C3 counterexample: with a dimension configured without a prompt
template, `evaluate` returns normally and its record contains an
error-marked verdict for that dimension instead of the
`ConfigurationError` escaping to the caller. -/
theorem C3_counterexample :
    evaluateRun c3dims c3net ["dim1"] =
      .ok ⟨[("dim1", errVerdict "dim1" "维度一" "维度 dim1 没有配置提示词文件")],
        ⟨round2 0, 100, [], getGrade 0⟩⟩ ∧
    jHasKey (errVerdict "dim1" "维度一" "维度 dim1 没有配置提示词文件") "error" = true :=
  ⟨rfl, rfl⟩

/-- C3 (amended): a requested dimension with no prompt template makes
`_evaluate_dimension` raise a `ValueError` (outside its containment
block), but `evaluate` catches the raised error when collecting that
future and stores an error-marked verdict for the dimension; the error
does not escape to the caller of `evaluate`. -/
theorem C3_missing_template_contained (dims : List (String × DimConfig))
    (d : String) (cfg : DimConfig)
    (hcfg : dims.lookup d = some cfg) (hpf : cfg.prompt_file = none)
    (net : String → Except PyError (List Char)) :
    evaluateDimension dims d (net d) =
      .error ⟨"ValueError", s!"维度 {d} 没有配置提示词文件"⟩ ∧
    storedVerdict dims d (evaluateDimension dims d (net d)) =
      errVerdict d (cfg.name.getD d) s!"维度 {d} 没有配置提示词文件" ∧
    (∀ (order : List String) (r : EvalRecord), d ∈ order →
      evaluateRun dims net order = .ok r →
      (d, errVerdict d (cfg.name.getD d) s!"维度 {d} 没有配置提示词文件") ∈
        r.dimensions) := by
  have hname : dimName dims d = cfg.name.getD d := by simp [dimName, hcfg]
  have h1 : evaluateDimension dims d (net d) =
      .error ⟨"ValueError", s!"维度 {d} 没有配置提示词文件"⟩ := by
    simp [evaluateDimension, loadPrompt, hcfg, hpf]
  have h2 : storedVerdict dims d (evaluateDimension dims d (net d)) =
      errVerdict d (cfg.name.getD d) s!"维度 {d} 没有配置提示词文件" := by
    simp [storedVerdict, h1, hname]
  refine ⟨h1, h2, ?_⟩
  intro order r hd hok
  simp only [evaluateRun] at hok
  cases hc : calcOverallScore dims
      (order.map fun x => (x, storedVerdict dims x (evaluateDimension dims x (net x)))) with
  | error e => rw [hc] at hok; cases hok
  | ok ov =>
    rw [hc] at hok
    have hr : (⟨order.map fun x =>
        (x, storedVerdict dims x (evaluateDimension dims x (net x))), ov⟩ :
        EvalRecord) = r := by
      cases hok
      rfl
    rw [← hr]
    exact List.mem_map.mpr ⟨d, hd, by rw [h2]⟩

/-- Witness for C3 at the concrete configuration. -/
theorem C3_missing_template_contained_witness :
    c3dims.lookup "dim1" = some ⟨some "维度一", some 1, none⟩ ∧
    evaluateDimension c3dims "dim1" (c3net "dim1") =
      .error ⟨"ValueError", "维度 dim1 没有配置提示词文件"⟩ ∧
    storedVerdict c3dims "dim1" (evaluateDimension c3dims "dim1" (c3net "dim1")) =
      errVerdict "dim1" "维度一" "维度 dim1 没有配置提示词文件" :=
  ⟨rfl,
    (C3_missing_template_contained c3dims "dim1" ⟨some "维度一", some 1, none⟩
      rfl rfl c3net).1,
    (C3_missing_template_contained c3dims "dim1" ⟨some "维度一", some 1, none⟩
      rfl rfl c3net).2.1⟩

/-! ## C9 -/

/-- C9: for a successful `evaluate` run over any requested dimension
list (defaulting to every configured dimension) and ANY completion
order of the futures, the returned record's mapping holds exactly one
verdict per requested identifier, and the overall summary is the
aggregation of the full collected mapping. -/
theorem C9_complete_verdict_mapping (dims : List (String × DimConfig))
    (net : String → Except PyError (List Char))
    (requested : Option (List String)) (order : List String) (r : EvalRecord)
    (hperm : order.Perm (requestedDims dims requested))
    (hnodup : (requestedDims dims requested).Nodup)
    (hok : evaluateRun dims net order = .ok r) :
    (∀ d, (r.dimensions.map Prod.fst).count d =
      if d ∈ requestedDims dims requested then 1 else 0) ∧
    calcOverallScore dims r.dimensions = .ok r.overall := by
  simp only [evaluateRun] at hok
  cases hc : calcOverallScore dims
      (order.map fun x => (x, storedVerdict dims x (evaluateDimension dims x (net x)))) with
  | error e => rw [hc] at hok; cases hok
  | ok ov =>
    rw [hc] at hok
    have hr : (⟨order.map fun x =>
        (x, storedVerdict dims x (evaluateDimension dims x (net x))), ov⟩ :
        EvalRecord) = r := by
      cases hok
      rfl
    constructor
    · intro d
      have hmap : (r.dimensions.map Prod.fst) = order := by
        rw [← hr]
        show (order.map (fun x =>
          (x, storedVerdict dims x (evaluateDimension dims x (net x))))).map Prod.fst = order
        rw [List.map_map]
        exact List.map_id order
      rw [hmap, hperm.count_eq]
      by_cases hd : d ∈ requestedDims dims requested
      · rw [if_pos hd]
        exact List.count_eq_one_of_mem hnodup hd
      · rw [if_neg hd]
        exact List.count_eq_zero_of_not_mem hd
    · rw [← hr]
      exact hc

/-- Witness for C9: two configured dimensions, default request,
completion order reversed from configuration order. -/
theorem C9_complete_verdict_mapping_witness :
    (["b", "a"].Perm (requestedDims c9dims none)) ∧
    (requestedDims c9dims none).Nodup ∧
    evaluateRun c9dims c9net ["b", "a"] = .ok c9rec ∧
    (∀ d, (c9rec.dimensions.map Prod.fst).count d =
      if d ∈ requestedDims c9dims none then 1 else 0) ∧
    calcOverallScore c9dims c9rec.dimensions = .ok c9rec.overall :=
  ⟨by decide, by decide, rfl,
    (C9_complete_verdict_mapping c9dims c9net none ["b", "a"] c9rec
      (by decide) (by decide) rfl).1,
    (C9_complete_verdict_mapping c9dims c9net none ["b", "a"] c9rec
      (by decide) (by decide) rfl).2⟩
